import Mathlib

/-!
Verification of the istio manager control plane (validation, discovery
service caches and handlers, proxy agent launch plumbing).

The Go source is shallowly embedded: Go strings become `String`, `int`/`int32`
becomes `Int` (Go byte-length of a string is modelled by `String.length`; the
distinction only matters for multi-byte text, which none of the proved
properties touch), `float32`/`float64` values that are only ever compared
against integer bounds become `Rat`, accumulated `multierror` values become
`List VErr` (the empty list is Go's `nil` error; `multierror.Append` flattens
nested multierrors, which matches list concatenation), and Go maps iterated
for validation become association lists.  Error messages built by
`fmt.Errorf` are represented by one `VErr` constructor per format string,
carrying the formatted arguments.
-/

namespace Manager

/-- One constructor per `fmt.Errorf` call site reachable from the embedded
validators; the constructor arguments are the values interpolated into the
Go format string. -/
inductive VErr where
  | invalidEmptyHostname
  | invalidHostnamePart (part : String)
  | serviceNoPorts
  | emptyPortNamesNotAllowed
  | invalidPortName (name : String)
  | invalidServicePortValue (port : Int) (name : String)
  | routeRuleNoDestination
  | domainTooLong (fqdn : String)
  | emptyDomain
  | domainInvalidLabel (fqdn : String) (label : String)
  | invalidTagKey (k : String)
  | invalidTagValue (v : String)
  | udpUnsupported
  | notValidCIDR (subnet : String)
  | cidrBlockInvalid (cidr : String)
  | ipAddressInvalid (addr : String)
  | percentRange (label : String)
  | timeoutRange
  | attemptsRange
  | delayFixedInvalid
  | delayExpInvalid
  | expDelayUnsupported
  | invalidAbortHttpStatus (status : Int)
  | grpcAbortUnsupported
  | terminateUnsupported
  | downstreamLimitInvalid
  | upstreamLimitInvalid
  | throttleAfterSecondsInvalid
  | throttleAfterBytesInvalid
  | l4FaultUnsupported
  | routeWeightsTotal (sum : Int)
  deriving DecidableEq, Repr

/-- `if cond { errs = multierror.Append(errs, fmt.Errorf(...)) }`. -/
def errIf (b : Bool) (e : VErr) : List VErr := if b then [e] else []

/-- `strings.Split` on a one-character separator, over the character list:
splitting the empty string yields one empty field, and every separator
starts a new field. -/
def goSplitChar (sep : Char) : List Char → List (List Char)
  | [] => [[]]
  | c :: rest =>
    if c = sep then [] :: goSplitChar sep rest
    else
      match goSplitChar sep rest with
      | [] => [[c]]
      | g :: gs => (c :: g) :: gs

/-- `strings.Split(s, sep)` for the one-character separators the validators
use (`"."` and `"/"`). -/
def goSplit (sep : Char) (s : String) : List String :=
  (goSplitChar sep s.toList).map String.mk

/-- A lowercase-alphanumeric character, as in the `[a-z0-9]` character class. -/
def isLowerAlnum (c : Char) : Bool :=
  (('a' ≤ c && c ≤ 'z') || ('0' ≤ c && c ≤ '9'))

/-- A character of the `[-a-z0-9]` class. -/
def isLabelChar (c : Char) : Bool := c = '-' || isLowerAlnum c

/-- Matching against `^[a-z0-9]([-a-z0-9]*[a-z0-9])?$`: nonempty, first and
last characters alphanumeric, interior characters may also be dashes. -/
def matchesDNS1123Fmt : List Char → Bool
  | [] => false
  | c :: rest =>
    isLowerAlnum c &&
    (match (c :: rest).getLast? with
     | some d => isLowerAlnum d
     | none => false) &&
    (c :: rest).all isLabelChar

/-- `dns1123LabelMaxLength`. -/
def dns1123LabelMaxLength : Nat := 63

/-- `IsDNS1123Label` from `model/validation.go`. -/
def IsDNS1123Label (value : String) : Bool :=
  value.length ≤ dns1123LabelMaxLength && matchesDNS1123Fmt value.toList

/-- Matching against the tag pattern `^[-A-Za-z0-9_./]*$`. -/
def tagMatches (s : String) : Bool :=
  s.toList.all (fun c =>
    c = '-' || c = '_' || c = '.' || c = '/' ||
    ('a' ≤ c && c ≤ 'z') || ('A' ≤ c && c ≤ 'Z') || ('0' ≤ c && c ≤ '9'))

/-- `model.Port`: a network port of a service. -/
structure Port where
  Name : String
  Port : Int
  Protocol : String
  deriving DecidableEq, Repr

/-- `model.Service` (the fields `Service.Validate` reads). -/
structure Service where
  Hostname : String
  Ports : List Port
  deriving DecidableEq, Repr

/-- `Service.Validate` from `model/validation.go`: hostname well-formedness,
at least one port, port-name and port-number checks. -/
def Service.Validate (s : Service) : List VErr :=
  errIf (s.Hostname.length = 0) .invalidEmptyHostname ++
  ((goSplit '.' s.Hostname).flatMap (fun part =>
    errIf (!IsDNS1123Label part) (.invalidHostnamePart part))) ++
  errIf (s.Ports.length = 0) .serviceNoPorts ++
  (s.Ports.flatMap (fun port =>
    (if port.Name = "" then
       errIf (s.Ports.length > 1) .emptyPortNamesNotAllowed
     else
       errIf (!IsDNS1123Label port.Name) (.invalidPortName port.Name)) ++
    errIf (port.Port < 0) (.invalidServicePortValue port.Port port.Name)))

/-- `model.Tags` (`map[string]string`), iterated as an association list. -/
def Tags := List (String × String)

/-- `Tags.Validate`: every key and value must match the tag pattern. -/
def Tags.Validate (t : Tags) : List VErr :=
  t.flatMap (fun kv =>
    errIf (!tagMatches kv.1) (.invalidTagKey kv.1) ++
    errIf (!tagMatches kv.2) (.invalidTagValue kv.2))

/-- `validateFQDN`: length bounds, then the first label failing DNS-1123
(the Go loop returns on the first bad label). -/
def validateFQDN (fqdn : String) : List VErr :=
  if fqdn.length > 255 then [.domainTooLong fqdn]
  else if fqdn.length = 0 then [.emptyDomain]
  else
    match (goSplit '.' fqdn).find? (fun label => !IsDNS1123Label label) with
    | some label => [.domainInvalidLabel fqdn label]
    | none => []

/-- `strconv.Atoi`: optional sign, at least one digit, all digits.
(Go's `ErrRange` overflow cases also report an error there; every use site
only distinguishes success from failure plus a small-range bound, so exact
big-integer parsing is an equivalent model.) -/
def goAtoi (s : String) : Option Int :=
  let signAndDigits : Int × List Char :=
    match s.toList with
    | '+' :: rest => (1, rest)
    | '-' :: rest => (-1, rest)
    | l => (1, l)
  match signAndDigits with
  | (sign, digits) =>
    if digits.isEmpty then none
    else if digits.all Char.isDigit then
      some (sign * (digits.foldl (fun a c => a * 10 + ((c.toNat : Int) - 48)) 0))
    else none

/-- `validateCIDRBlock`: the suffix after `/` must parse and lie in `[1,32]`. -/
def validateCIDRBlock (cidr : String) : List VErr :=
  match goAtoi cidr with
  | none => [.cidrBlockInvalid cidr]
  | some bits => errIf (bits ≤ 0 || bits > 32) (.cidrBlockInvalid cidr)

/-- `validateIPv4Address`: four octets, each parsing into `[0,255]` (the Go
loop returns the same message on the first bad octet). -/
def validateIPv4Address (addr : String) : List VErr :=
  let octets := goSplit '.' addr
  if octets.length ≠ 4 then [.ipAddressInvalid addr]
  else
    match octets.find? (fun octet =>
        match goAtoi octet with
        | none => true
        | some n => n < 0 || n > 255) with
    | some _ => [.ipAddressInvalid addr]
    | none => []

/-- `validateIPv4Subnet`: at most one `/`; with a suffix, check the CIDR
block and then the address. -/
def validateIPv4Subnet (subnet : String) : List VErr :=
  match goSplit '/' subnet with
  | [addr] => validateIPv4Address addr
  | [addr, cidr] => validateCIDRBlock cidr ++ validateIPv4Address addr
  | _ => [.notValidCIDR subnet]

/-- `validateSubnet` delegates to the IPv4 checker. -/
def validateSubnet (subnet : String) : List VErr := validateIPv4Subnet subnet

/-- `proxyconfig.L4MatchAttributes`. -/
structure L4MatchAttributes where
  SourceSubnet : List String
  DestinationSubnet : List String
  deriving DecidableEq, Repr

/-- `ValidateL4MatchAttributes`. -/
def ValidateL4MatchAttributes (ma : L4MatchAttributes) : List VErr :=
  ma.SourceSubnet.flatMap validateSubnet ++
  ma.DestinationSubnet.flatMap validateSubnet

/-- `proxyconfig.MatchCondition` (http_headers are not validated and are
omitted). -/
structure MatchCondition where
  Source : String
  SourceTags : Tags
  Tcp : Option L4MatchAttributes
  Udp : Option L4MatchAttributes

/-- `ValidateMatchCondition` from the revision with the
`Istio does not support UDP protocol yet` message. -/
def ValidateMatchCondition (mc : MatchCondition) : List VErr :=
  (if mc.Source ≠ "" then validateFQDN mc.Source else []) ++
  Tags.Validate mc.SourceTags ++
  (match mc.Tcp with
   | some ma => ValidateL4MatchAttributes ma
   | none => []) ++
  (match mc.Udp with
   | some ma => ValidateL4MatchAttributes ma ++ [.udpUnsupported]
   | none => [])

/-- `validatePercent` on an `int32` percent. -/
def validatePercent (val : Int) (label : String) : List VErr :=
  errIf (val < 0 || val > 100) (.percentRange label)

/-- `validateFloatPercent`; `float32` values compared against 0 and 100 are
modelled by rationals. -/
def validateFloatPercent (val : Rat) (label : String) : List VErr :=
  errIf (val < 0 || val > 100) (.percentRange label)

/-- `proxyconfig.DestinationWeight`. -/
structure DestinationWeight where
  Destination : String
  Tags : Tags
  Weight : Int

/-- `ValidateDestinationWeight`: optional destination FQDN, tags, weight
percent. -/
def ValidateDestinationWeight (dw : DestinationWeight) : List VErr :=
  (if dw.Destination ≠ "" then validateFQDN dw.Destination else []) ++
  Tags.Validate dw.Tags ++
  validatePercent dw.Weight "weight"

/-- `proxyconfig.HTTPTimeout` with its `simple_timeout` policy. -/
structure HTTPTimeout where
  SimpleTimeout : Option Rat

/-- `ValidateHTTPTimeout`. -/
def ValidateHTTPTimeout (timeout : HTTPTimeout) : List VErr :=
  match timeout.SimpleTimeout with
  | some timeoutSeconds => errIf (timeoutSeconds < 0) .timeoutRange
  | none => []

/-- `proxyconfig.HTTPRetry` with its `simple_retry` policy. -/
structure HTTPRetry where
  SimpleRetry : Option Int

/-- `ValidateHTTPRetries`. -/
def ValidateHTTPRetries (retry : HTTPRetry) : List VErr :=
  match retry.SimpleRetry with
  | some attempts => errIf (attempts < 0) .attemptsRange
  | none => []

/-- The `http_delay_type` oneof of an HTTP delay fault. -/
inductive HttpDelayType where
  | fixedDelaySeconds (v : Rat)
  | exponentialDelaySeconds (v : Rat)

/-- `proxyconfig.HTTPFaultInjection_Delay`. -/
structure Delay where
  Percent : Rat
  HttpDelayType : Option HttpDelayType

/-- `GetFixedDelaySeconds`: zero unless the oneof holds a fixed delay. -/
def Delay.getFixedDelaySeconds (d : Delay) : Rat :=
  match d.HttpDelayType with
  | some (.fixedDelaySeconds v) => v
  | _ => 0

/-- `GetExponentialDelaySeconds`: zero unless the oneof holds an exponential
delay. -/
def Delay.getExponentialDelaySeconds (d : Delay) : Rat :=
  match d.HttpDelayType with
  | some (.exponentialDelaySeconds v) => v
  | _ => 0

/-- `validateDelay`: percent, fixed-delay sign, and the explicit rejection of
exponential delays. -/
def validateDelay (delay : Delay) : List VErr :=
  validateFloatPercent delay.Percent "delay" ++
  errIf (delay.getFixedDelaySeconds < 0) .delayFixedInvalid ++
  (if delay.getExponentialDelaySeconds ≠ 0 then
     errIf (delay.getExponentialDelaySeconds < 0) .delayExpInvalid ++
     [.expDelayUnsupported]
   else [])

/-- The `error_type` oneof of an HTTP abort fault. -/
inductive AbortErrorType where
  | grpcStatus (s : Int)
  | http2Error (s : String)
  | httpStatus (s : Int)

/-- `proxyconfig.HTTPFaultInjection_Abort`. -/
structure Abort where
  Percent : Rat
  ErrorType : Option AbortErrorType

/-- `validateAbortHTTPStatus`: the wrapped `int32` status must lie in
`[0,600]`. -/
def validateAbortHTTPStatus (httpStatus : Int) : List VErr :=
  errIf (httpStatus < 0 || httpStatus > 600) (.invalidAbortHttpStatus httpStatus)

/-- `validateAbort` from the revision with the
`Istio does not support gRPC fault injection yet` message: percent check,
then a switch on the error type that rejects gRPC aborts outright and bounds
HTTP statuses. -/
def validateAbort (abort : Abort) : List VErr :=
  validateFloatPercent abort.Percent "abort" ++
  (match abort.ErrorType with
   | some (.grpcStatus _) => [.grpcAbortUnsupported]
   | some (.http2Error _) => []
   | some (.httpStatus s) => validateAbortHTTPStatus s
   | none => [])

/-- `proxyconfig.HTTPFaultInjection`. -/
structure HTTPFaultInjection where
  Delay : Option Delay
  Abort : Option Abort

/-- `ValidateHTTPFault`. -/
def ValidateHTTPFault (fault : HTTPFaultInjection) : List VErr :=
  (match fault.Delay with
   | some d => validateDelay d
   | none => []) ++
  (match fault.Abort with
   | some a => validateAbort a
   | none => [])

/-- `proxyconfig.L4FaultInjection_Terminate`. -/
structure Terminate where
  Percent : Rat

/-- `validateTerminate`. -/
def validateTerminate (terminate : Terminate) : List VErr :=
  validateFloatPercent terminate.Percent "terminate"

/-- The `throttle_after` oneof of a throttle fault. -/
inductive ThrottleAfter where
  | seconds (v : Rat)
  | bytes (v : Int)

/-- `proxyconfig.L4FaultInjection_Throttle`. -/
structure Throttle where
  Percent : Rat
  DownstreamLimitBps : Int
  UpstreamLimitBps : Int
  ThrottleAfter : Option ThrottleAfter

/-- `GetThrottleAfterSeconds`. -/
def Throttle.getThrottleAfterSeconds (t : Throttle) : Rat :=
  match t.ThrottleAfter with
  | some (.seconds v) => v
  | _ => 0

/-- `GetThrottleAfterBytes`. -/
def Throttle.getThrottleAfterBytes (t : Throttle) : Int :=
  match t.ThrottleAfter with
  | some (.bytes v) => v
  | _ => 0

/-- `validateThrottle`. -/
def validateThrottle (throttle : Throttle) : List VErr :=
  validateFloatPercent throttle.Percent "throttle" ++
  errIf (throttle.DownstreamLimitBps < 0) .downstreamLimitInvalid ++
  errIf (throttle.UpstreamLimitBps < 0) .upstreamLimitInvalid ++
  errIf (throttle.getThrottleAfterSeconds < 0) .throttleAfterSecondsInvalid ++
  errIf (throttle.getThrottleAfterBytes < 0) .throttleAfterBytesInvalid

/-- `proxyconfig.L4FaultInjection`. -/
structure L4FaultInjection where
  Terminate : Option Terminate
  Throttle : Option Throttle

/-- `ValidateL4Fault` from the revision with the
`Istio does not support the terminate fault yet` message. -/
def ValidateL4Fault (fault : L4FaultInjection) : List VErr :=
  (match fault.Terminate with
   | some t => validateTerminate t ++ [.terminateUnsupported]
   | none => []) ++
  (match fault.Throttle with
   | some t => validateThrottle t
   | none => [])

/-- Go `sum := 0; for ... { sum = sum + int(destWeight.Weight) }`. -/
def weightSum (routes : List DestinationWeight) : Int :=
  routes.foldl (fun sum dw => sum + dw.Weight) 0

/-- `validateWeights`: with a single destination a zero weight is accepted
(treated as 100); otherwise the sum must be exactly 100.  The
`defaultDestination` argument is unused, as in the source. -/
def validateWeights (routes : List DestinationWeight)
    (defaultDestination : String) : List VErr :=
  let sum := weightSum routes
  if routes.length = 1 && sum = 0 then []
  else errIf (sum ≠ 100) (.routeWeightsTotal sum)

/-- `proxyconfig.RouteRule` (precedence is not validated; `Route` is a Go
slice whose nil/non-nil distinction is an `Option`). -/
structure RouteRule where
  Destination : String
  Match : Option MatchCondition
  Route : Option (List DestinationWeight)
  HttpReqTimeout : Option HTTPTimeout
  HttpReqRetries : Option HTTPRetry
  HttpFault : Option HTTPFaultInjection
  L4Fault : Option L4FaultInjection

/-- `ValidateRouteRule` from the revision with `validateWeights` (the
`proto.Message` downcast is made static by typing the argument). -/
def ValidateRouteRule (value : RouteRule) : List VErr :=
  errIf (value.Destination = "") .routeRuleNoDestination ++
  validateFQDN value.Destination ++
  (match value.Match with
   | some mc => ValidateMatchCondition mc
   | none => []) ++
  (match value.Route with
   | some routes =>
     routes.flatMap ValidateDestinationWeight ++
     validateWeights routes value.Destination
   | none => []) ++
  (match value.HttpReqTimeout with
   | some t => ValidateHTTPTimeout t
   | none => []) ++
  (match value.HttpReqRetries with
   | some r => ValidateHTTPRetries r
   | none => []) ++
  (match value.HttpFault with
   | some f => ValidateHTTPFault f
   | none => []) ++
  (match value.L4Fault with
   | some f => ValidateL4Fault f ++ [.l4FaultUnsupported]
   | none => [])

/-! ### Discovery service (`proxy/envoy/discovery.go`)

Caches map request URLs to byte payloads (`String` here); the Go map is an
association list, mutation is explicit state passing. -/

/-- Association-list lookup standing in for Go map indexing. -/
def alookup {κ α : Type} [DecidableEq κ] (k : κ) : List (κ × α) → Option α
  | [] => none
  | (k1, v) :: rest => if k1 = k then some v else alookup k rest

/-- `discoveryCacheEntry`: payload plus hit/miss counters (`data = none` is
the Go nil slice, an evicted entry). -/
structure discoveryCacheEntry where
  data : Option String
  hit : Nat
  miss : Nat
  deriving DecidableEq, Repr

/-- `discoveryCache`. -/
structure discoveryCache where
  disabled : Bool
  cache : List (String × discoveryCacheEntry)
  deriving DecidableEq, Repr

/-- `newDiscoveryCache`. -/
def newDiscoveryCache (enabled : Bool) : discoveryCache :=
  { disabled := !enabled, cache := [] }

/-- `cachedDiscoveryResponse`: returns the payload when present and bumps the
entry's hit counter; a disabled cache or an absent/evicted entry is a miss
that leaves the cache untouched. -/
def discoveryCache.cachedDiscoveryResponse (c : discoveryCache) (key : String) :
    Option String × discoveryCache :=
  if c.disabled then (none, c)
  else
    match alookup key c.cache with
    | none => (none, c)
    | some entry =>
      match entry.data with
      | none => (none, c)
      | some d =>
        (some d,
         { c with cache := c.cache.map (fun kv =>
             if kv.1 = key then (kv.1, { kv.2 with hit := kv.2.hit + 1 }) else kv) })

/-- `updateCachedDiscoveryResponse`: no-op when disabled; creates a fresh
entry or overwrites the payload of an existing one, bumping its miss
counter. -/
def discoveryCache.updateCachedDiscoveryResponse (c : discoveryCache)
    (key : String) (data : String) : discoveryCache :=
  if c.disabled then c
  else
    match alookup key c.cache with
    | none =>
      { c with cache := c.cache ++ [(key, { data := some data, hit := 0, miss := 1 })] }
    | some _ =>
      { c with cache := c.cache.map (fun kv =>
          if kv.1 = key then
            (kv.1, { data := some data, hit := kv.2.hit, miss := kv.2.miss + 1 })
          else kv) }

/-- `clear`: evict every entry's data, keeping keys and counters. -/
def discoveryCache.clear (c : discoveryCache) : discoveryCache :=
  { c with cache := c.cache.map (fun kv => (kv.1, { kv.2 with data := none })) }

/-- `resetStats`: zero every entry's counters. -/
def discoveryCache.resetStats (c : discoveryCache) : discoveryCache :=
  { c with cache := c.cache.map (fun kv => (kv.1, { kv.2 with hit := 0, miss := 0 })) }

/-- `stats`: the key → (hit, miss) view served by `/cache_stats`. -/
def discoveryCache.stats (c : discoveryCache) : List (String × Nat × Nat) :=
  c.cache.map (fun kv => (kv.1, kv.2.hit, kv.2.miss))

/-- A Go slice, distinguishing the nil slice from a non-nil (possibly empty)
one; `encoding/json` renders the former as `null` and the latter as an
array. -/
inductive GoSlice (α : Type) where
  | nil
  | mk (elems : List α)

/-- The `host` JSON element of an SDS response. -/
structure host where
  Address : String
  Port : Int
  Weight : Int
  deriving DecidableEq, Repr

/-- JSON string quoting (escaping of control and quote characters is elided;
the addresses and cluster names in scope contain none). -/
def goQuote (s : String) : String := "\"" ++ s ++ "\""

/-- One `host` object as rendered by `json.MarshalIndent(·, " ", " ")` at
nesting depth 2 (every line starts with the one-space prefix and one
one-space indent per depth), with `load_balancing_weight` omitted when zero
(`omitempty`). -/
def renderHost (h : host) : String :=
  "   \x7b\n" ++
  "    \"ip_address\": " ++ goQuote h.Address ++ ",\n" ++
  "    \"port\": " ++ toString h.Port ++
  (if h.Weight ≠ 0 then ",\n    \"load_balancing_weight\": " ++ toString h.Weight
   else "") ++
  "\n   \x7d"

/-- The text between the brackets of the `hosts` array: nothing when the
array is empty, one element per line otherwise. -/
def renderHostsInner : List host → String
  | [] => ""
  | l => "\n" ++ String.intercalate ",\n" (l.map renderHost) ++ "\n  "

/-- `json.MarshalIndent(hosts{Hosts: hs}, " ", " ")`: a nil `Hosts` slice
renders as `null`, a non-nil (possibly empty) one as an array.  Marshaling
of this shape never fails. -/
def goMarshalHosts (hs : GoSlice host) : Except String String :=
  .ok (match hs with
       | .nil => "\x7b\n  \"hosts\": null\n \x7d"
       | .mk l => "\x7b\n  \"hosts\": [" ++ renderHostsInner l ++ "]\n \x7d")

/-- `model.NetworkEndpoint` (the fields the SDS handler reads). -/
structure NetworkEndpoint where
  Address : String
  Port : Int
  deriving DecidableEq, Repr

/-- `model.ServiceInstance` (the fields the discovery service reads). -/
structure ServiceInstance where
  Endpoint : NetworkEndpoint
  Tags : List (String × String)
  deriving DecidableEq, Repr

/-- `model.Key` of a config object. -/
structure Key where
  Kind : String
  Name : String
  Namespace : String
  deriving DecidableEq, Repr

/-- `model.Event` delivered to change handlers. -/
inductive Event where
  | add
  | update
  | delete
  deriving DecidableEq, Repr

/-- `proxyconfig.ProxyMeshConfig` (the fields the embedded code reads; the
two duration fields are modelled in whole seconds, i.e. already passed
through `convertDuration(...)/time.Second`, whose source is outside the
provided tree). -/
structure ProxyMeshConfig where
  IstioServiceCluster : String
  DrainSeconds : Int
  ParentShutdownSeconds : Int
  deriving DecidableEq, Repr

/-- `DiscoveryService`.  The registry, config store, route-generation and
JSON-marshaling collaborators (`model.ServiceDiscovery`,
`buildOutboundHTTPRoutes`, `insertDestinationPolicy`, `json.MarshalIndent`
on the opaque payloads) live behind Go interfaces or in files outside the
provided tree, so they are function-typed fields over opaque payload types
`α` (CDS cluster set) and `β` (one RDS route config). -/
structure DiscoveryService (α β : Type) where
  mesh : ProxyMeshConfig
  sdsCache : discoveryCache
  cdsCache : discoveryCache
  rdsCache : discoveryCache
  parseServiceKey : String → String × List String × List (String × String)
  instances : String → List String → List (String × String) → List ServiceInstance
  marshalHosts : GoSlice host → Except String String
  buildClusters : String → α
  marshalClusters : α → Except String String
  buildHTTPRouteConfigs : String → List (Int × β)
  marshalRouteConfig : β → Except String String

/-- `DiscoveryServiceOptions` (the subset the embedding needs). -/
structure DiscoveryServiceOptions (α β : Type) where
  Mesh : ProxyMeshConfig
  EnableCaching : Bool
  parseServiceKey : String → String × List String × List (String × String)
  instances : String → List String → List (String × String) → List ServiceInstance
  marshalHosts : GoSlice host → Except String String
  buildClusters : String → α
  marshalClusters : α → Except String String
  buildHTTPRouteConfigs : String → List (Int × β)
  marshalRouteConfig : β → Except String String

/-- `NewDiscoveryService`: all three caches are created from the single
`EnableCaching` option. -/
def NewDiscoveryService {α β : Type} (o : DiscoveryServiceOptions α β) :
    DiscoveryService α β :=
  { mesh := o.Mesh
    sdsCache := newDiscoveryCache o.EnableCaching
    cdsCache := newDiscoveryCache o.EnableCaching
    rdsCache := newDiscoveryCache o.EnableCaching
    parseServiceKey := o.parseServiceKey
    instances := o.instances
    marshalHosts := o.marshalHosts
    buildClusters := o.buildClusters
    marshalClusters := o.marshalClusters
    buildHTTPRouteConfigs := o.buildHTTPRouteConfigs
    marshalRouteConfig := o.marshalRouteConfig }

/-- `clearCache`: clear all three caches. -/
def DiscoveryService.clearCache {α β : Type} (ds : DiscoveryService α β) :
    DiscoveryService α β :=
  { ds with
    sdsCache := ds.sdsCache.clear
    cdsCache := ds.cdsCache.clear
    rdsCache := ds.rdsCache.clear }

/-- The service change handler installed by `NewDiscoveryService`:
`func(s *model.Service, e model.Event) { out.clearCache() }`. -/
def serviceHandler {α β : Type} (ds : DiscoveryService α β)
    (s : Service) (e : Event) : DiscoveryService α β :=
  ds.clearCache

/-- The instance change handler installed by `NewDiscoveryService`. -/
def instanceHandler {α β : Type} (ds : DiscoveryService α β)
    (i : ServiceInstance) (e : Event) : DiscoveryService α β :=
  ds.clearCache

/-- The config change handler installed by `NewDiscoveryService`, registered
for both the `RouteRule` and the `DestinationPolicy` kinds. -/
def configHandler {α β M : Type} (ds : DiscoveryService α β)
    (k : Key) (m : M) (e : Event) : DiscoveryService α β :=
  ds.clearCache

/-- An incoming discovery request: the URL (the cache key) and the parsed
path parameters. -/
structure Request where
  url : String
  serviceKey : String
  serviceCluster : String
  serviceNode : String
  routeConfigName : String
  deriving DecidableEq, Repr

/-- What a handler writes back: `writeResponse` (200 with a body) or
`errorResponse` (a status and a diagnostic message). -/
inductive HttpResult where
  | ok (body : String)
  | err (status : Nat) (msg : String)
  deriving DecidableEq, Repr

/-- `ListEndpoints` (SDS): serve from cache, otherwise enumerate instances of
the parsed service key into a non-nil `hostArray` (envoy expects an empty
array, not null), marshal, store, reply. -/
def ListEndpoints {α β : Type} (ds : DiscoveryService α β) (request : Request) :
    HttpResult × DiscoveryService α β :=
  let key := request.url
  match ds.sdsCache.cachedDiscoveryResponse key with
  | (some out, sds1) => (.ok out, { ds with sdsCache := sds1 })
  | (none, sds1) =>
    match ds.parseServiceKey request.serviceKey with
    | (hostname, ports, tags) =>
      let hostArray : GoSlice host :=
        .mk ((ds.instances hostname ports tags).map (fun ep =>
          { Address := ep.Endpoint.Address, Port := ep.Endpoint.Port, Weight := 0 }))
      match ds.marshalHosts hostArray with
      | .error e => (.err 500 e, { ds with sdsCache := sds1 })
      | .ok out =>
        (.ok out, { ds with sdsCache := sds1.updateCachedDiscoveryResponse key out })

/-- `ListClusters` (CDS): serve from cache; otherwise reject a foreign
service-cluster with 404, build and marshal the normalized clusters for the
proxy IP carried in service-node, store, reply. -/
def ListClusters {α β : Type} (ds : DiscoveryService α β) (request : Request) :
    HttpResult × DiscoveryService α β :=
  let key := request.url
  match ds.cdsCache.cachedDiscoveryResponse key with
  | (some out, cds1) => (.ok out, { ds with cdsCache := cds1 })
  | (none, cds1) =>
    if request.serviceCluster ≠ ds.mesh.IstioServiceCluster then
      (.err 404 ("Unexpected service-cluster " ++ goQuote request.serviceCluster),
       { ds with cdsCache := cds1 })
    else
      let ip := request.serviceNode
      let clusters := ds.buildClusters ip
      match ds.marshalClusters clusters with
      | .error e => (.err 500 e, { ds with cdsCache := cds1 })
      | .ok out =>
        (.ok out, { ds with cdsCache := cds1.updateCachedDiscoveryResponse key out })

/-- `ListRoutes` (RDS): serve from cache; otherwise reject a foreign
service-cluster with 404, parse the route-config-name as a listener port
(404 when unparsable), select that port's route config (404 when absent),
marshal, store, reply. -/
def ListRoutes {α β : Type} (ds : DiscoveryService α β) (request : Request) :
    HttpResult × DiscoveryService α β :=
  let key := request.url
  match ds.rdsCache.cachedDiscoveryResponse key with
  | (some out, rds1) => (.ok out, { ds with rdsCache := rds1 })
  | (none, rds1) =>
    if request.serviceCluster ≠ ds.mesh.IstioServiceCluster then
      (.err 404 ("Unexpected service-cluster " ++ goQuote request.serviceCluster),
       { ds with rdsCache := rds1 })
    else
      let ip := request.serviceNode
      let routeConfigName := request.routeConfigName
      match goAtoi routeConfigName with
      | none =>
        (.err 404 ("Unexpected route-config-name " ++ goQuote routeConfigName),
         { ds with rdsCache := rds1 })
      | some port =>
        match alookup port (ds.buildHTTPRouteConfigs ip) with
        | none =>
          (.err 404 ("Missing route config for port " ++ toString port),
           { ds with rdsCache := rds1 })
        | some routeConfig =>
          match ds.marshalRouteConfig routeConfig with
          | .error e => (.err 500 e, { ds with rdsCache := rds1 })
          | .ok out =>
            (.ok out, { ds with rdsCache := rds1.updateCachedDiscoveryResponse key out })

/-! ### Proxy agent launch plumbing (`proxy/envoy/watcher.go`) -/

/-- `EpochFileTemplate`. -/
def EpochFileTemplate : String := "%s/envoy-rev%d.json"

/-- `BinaryPath`. -/
def BinaryPath : String := "/usr/local/bin/envoy"

/-- `ConfigPath`. -/
def ConfigPath : String := "/etc/envoy"

/-- `configFile`: `fmt.Sprintf("%s/envoy-rev%d.json", config, epoch)`. -/
def configFile (config : String) (epoch : Int) : String :=
  config ++ "/envoy-rev" ++ toString epoch ++ ".json"

/-- What one invocation of the closure returned by `runEnvoy` does before
blocking on the child: the config file it writes, the binary and the
argument vector it spawns. -/
structure EnvoySpawn where
  configFileWritten : String
  binary : String
  args : List String
  deriving DecidableEq, Repr

/-- `runEnvoy(mesh, ip)` applied to an epoch: write the epoch config file,
then spawn envoy with the epoch, drain and parent-shutdown windows, the
service-cluster and the service-node, plus `-l trace`/`-l debug` at glog
verbosity 4/3.  The opaque envoy `Config` payload (`γ`) only gets written to
the file. -/
def runEnvoy {γ : Type} (mesh : ProxyMeshConfig) (ip : String)
    (config : γ) (epoch : Int) (verbosity : Nat) : EnvoySpawn :=
  let fname := configFile ConfigPath epoch
  let args := ["-c", fname,
    "--restart-epoch", toString epoch,
    "--drain-time-s", toString mesh.DrainSeconds,
    "--parent-shutdown-time-s", toString mesh.ParentShutdownSeconds,
    "--service-cluster", mesh.IstioServiceCluster,
    "--service-node", ip]
  let args :=
    if 4 ≤ verbosity then args ++ ["-l", "trace"]
    else if 3 ≤ verbosity then args ++ ["-l", "debug"]
    else args
  { configFileWritten := fname, binary := BinaryPath, args := args }

/-- `cleanupEnvoy(mesh)` applied to an epoch: the path it removes after the
child exits. -/
def cleanupEnvoy (mesh : ProxyMeshConfig) (epoch : Int) : String :=
  configFile ConfigPath epoch

/-! ### Auxiliary definitions for the statements -/

/-- Whether an error is the weight-sum error of `validateWeights`. -/
def VErr.isWeightSum : VErr → Bool
  | .routeWeightsTotal _ => true
  | _ => false

/-- The `Service` invariant list as worded in the specification (hostname
labels DNS-1123, at least one port, port names unique, an empty port name
only with a single port, non-negative port numbers); transcribed from the
spec's words, to be compared against what `Service.Validate` enforces. -/
def ServiceClaimedInvariants (s : Service) : Bool :=
  (goSplit '.' s.Hostname).all IsDNS1123Label &&
  decide (1 ≤ s.Ports.length) &&
  (s.Ports.map Port.Name).Nodup &&
  (s.Ports.all (fun p => p.Name ≠ "") || s.Ports.length = 1) &&
  s.Ports.all (fun p => decide (0 ≤ p.Port))

/-- A service with two ports sharing the name `http`. -/
def dupPortSvc : Service :=
  { Hostname := "hello", Ports := [⟨"http", 80, "HTTP"⟩, ⟨"http", 81, "HTTP"⟩] }

/-- A service whose single port name is an uppercase letter. -/
def upperPortSvc : Service :=
  { Hostname := "hello", Ports := [⟨"A", 80, "HTTP"⟩] }

/-- A service with an empty port name among two ports. -/
def svcEmptyName : Service :=
  { Hostname := "a", Ports := [⟨"", 80, ""⟩, ⟨"b", 81, ""⟩] }

/-- A well-formed single-port service. -/
def svcValid : Service :=
  { Hostname := "hello", Ports := [⟨"http", 80, "HTTP"⟩] }

/-- A route rule with two destinations whose weights total 30. -/
def wRule : RouteRule :=
  { Destination := "hello.default", Match := none,
    Route := some [⟨"", [], 10⟩, ⟨"", [], 20⟩],
    HttpReqTimeout := none, HttpReqRetries := none, HttpFault := none,
    L4Fault := none }

/-- A route rule with a single zero-weight destination. -/
def sRule : RouteRule :=
  { Destination := "hello.default", Match := none,
    Route := some [⟨"", [], 0⟩],
    HttpReqTimeout := none, HttpReqRetries := none, HttpFault := none,
    L4Fault := none }

/-- All three caches hold only evicted entries. -/
def DiscoveryService.allEvicted {α β : Type} (ds : DiscoveryService α β) : Prop :=
  (∀ kv ∈ ds.sdsCache.cache, kv.2.data = none) ∧
  (∀ kv ∈ ds.cdsCache.cache, kv.2.data = none) ∧
  (∀ kv ∈ ds.rdsCache.cache, kv.2.data = none)

/-- An arbitrary operation on one discovery cache (the cache API surface). -/
inductive CacheOp where
  | look (k : String)
  | upd (k : String) (d : String)
  | clr
  | rst

/-- Apply one cache operation to the cache state. -/
def applyOp (c : discoveryCache) : CacheOp → discoveryCache
  | .look k => (c.cachedDiscoveryResponse k).2
  | .upd k d => c.updateCachedDiscoveryResponse k d
  | .clr => c.clear
  | .rst => c.resetStats

/-- Apply a sequence of cache operations. -/
def applyOps (c : discoveryCache) (ops : List CacheOp) : discoveryCache :=
  ops.foldl applyOp c

/-- A mesh configuration for concrete instantiations. -/
def meshDefault : ProxyMeshConfig :=
  { IstioServiceCluster := "istio-proxy", DrainSeconds := 45, ParentShutdownSeconds := 60 }

/-- A discovery service over an empty registry, with caching enabled. -/
def dsEmpty : DiscoveryService Unit Unit :=
  { mesh := meshDefault
    sdsCache := newDiscoveryCache true
    cdsCache := newDiscoveryCache true
    rdsCache := newDiscoveryCache true
    parseServiceKey := fun s => (s, [], [])
    instances := fun hostname pnames tags => []
    marshalHosts := goMarshalHosts
    buildClusters := fun ip => ()
    marshalClusters := fun c => .ok "\x7b\x7d"
    buildHTTPRouteConfigs := fun ip => []
    marshalRouteConfig := fun rc => .ok "\x7b\x7d" }

/-- A CDS request presenting a service-cluster other than the mesh's. -/
def reqOther : Request :=
  { url := "/v1/clusters/other/10.0.0.1", serviceKey := ""
    serviceCluster := "other", serviceNode := "10.0.0.1", routeConfigName := "" }

/-- The SDS request for an unknown service key. -/
def reqNonexistent : Request :=
  { url := "/v1/registration/nonexistent", serviceKey := "nonexistent"
    serviceCluster := "", serviceNode := "", routeConfigName := "" }

/-- A warm single-entry cache. -/
def cacheOne : discoveryCache :=
  { disabled := false, cache := [("k", { data := some "v", hit := 2, miss := 3 })] }

/-- Construction options matching `dsEmpty` but with caching disabled. -/
def optsNoCache : DiscoveryServiceOptions Unit Unit :=
  { Mesh := meshDefault
    EnableCaching := false
    parseServiceKey := fun s => (s, [], [])
    instances := fun hostname pnames tags => []
    marshalHosts := goMarshalHosts
    buildClusters := fun ip => ()
    marshalClusters := fun c => .ok "\x7b\x7d"
    buildHTTPRouteConfigs := fun ip => []
    marshalRouteConfig := fun rc => .ok "\x7b\x7d" }

/-! ### Helper lemmas -/

theorem mem_errIf {b : Bool} {e x : VErr} (h : x ∈ errIf b e) : x = e := by
  unfold errIf at h
  split at h
  · simpa using h
  · simp at h

theorem noWS_tags (t : Tags) : ∀ e ∈ Tags.Validate t, e.isWeightSum = false := by
  intro e he
  simp only [Tags.Validate, List.mem_flatMap, List.mem_append] at he
  obtain ⟨kv, _, h⟩ := he
  rcases h with h | h <;> (rw [mem_errIf h]; rfl)

theorem noWS_validateFQDN (f : String) : ∀ e ∈ validateFQDN f, e.isWeightSum = false := by
  intro e he
  unfold validateFQDN at he
  split at he
  · simp at he; subst he; rfl
  · split at he
    · simp at he; subst he; rfl
    · split at he
      · simp at he; subst he; rfl
      · simp at he

theorem noWS_validateCIDRBlock (c : String) :
    ∀ e ∈ validateCIDRBlock c, e.isWeightSum = false := by
  intro e he
  unfold validateCIDRBlock at he
  split at he
  · simp at he; subst he; rfl
  · rw [mem_errIf he]; rfl

theorem noWS_validateIPv4Address (a : String) :
    ∀ e ∈ validateIPv4Address a, e.isWeightSum = false := by
  intro e he
  simp only [validateIPv4Address] at he
  split at he
  · simp at he; subst he; rfl
  · split at he
    · simp at he; subst he; rfl
    · simp at he

theorem noWS_validateSubnet (s : String) :
    ∀ e ∈ validateSubnet s, e.isWeightSum = false := by
  intro e he
  unfold validateSubnet validateIPv4Subnet at he
  split at he
  · exact noWS_validateIPv4Address _ e he
  · rcases List.mem_append.1 he with h | h
    · exact noWS_validateCIDRBlock _ e h
    · exact noWS_validateIPv4Address _ e h
  · simp at he; subst he; rfl

theorem noWS_validateL4Match (ma : L4MatchAttributes) :
    ∀ e ∈ ValidateL4MatchAttributes ma, e.isWeightSum = false := by
  intro e he
  simp only [ValidateL4MatchAttributes, List.mem_append, List.mem_flatMap] at he
  rcases he with ⟨s, _, h⟩ | ⟨s, _, h⟩ <;> exact noWS_validateSubnet s e h

theorem noWS_matchCondition (mc : MatchCondition) :
    ∀ e ∈ ValidateMatchCondition mc, e.isWeightSum = false := by
  intro e he
  simp only [ValidateMatchCondition, List.mem_append] at he
  rcases he with ((h | h) | h) | h
  · split at h
    · exact noWS_validateFQDN _ e h
    · simp at h
  · exact noWS_tags _ e h
  · split at h
    · exact noWS_validateL4Match _ e h
    · simp at h
  · split at h
    · rcases List.mem_append.1 h with h1 | h1
      · exact noWS_validateL4Match _ e h1
      · simp at h1; subst h1; rfl
    · simp at h

theorem noWS_validatePercent (v : Int) (l : String) :
    ∀ e ∈ validatePercent v l, e.isWeightSum = false := by
  intro e he
  rw [mem_errIf he]; rfl

theorem noWS_validateFloatPercent (v : Rat) (l : String) :
    ∀ e ∈ validateFloatPercent v l, e.isWeightSum = false := by
  intro e he
  rw [mem_errIf he]; rfl

theorem noWS_destinationWeight (dw : DestinationWeight) :
    ∀ e ∈ ValidateDestinationWeight dw, e.isWeightSum = false := by
  intro e he
  simp only [ValidateDestinationWeight, List.mem_append] at he
  rcases he with (h | h) | h
  · split at h
    · exact noWS_validateFQDN _ e h
    · simp at h
  · exact noWS_tags _ e h
  · exact noWS_validatePercent _ _ e h

theorem noWS_httpTimeout (t : HTTPTimeout) :
    ∀ e ∈ ValidateHTTPTimeout t, e.isWeightSum = false := by
  intro e he
  unfold ValidateHTTPTimeout at he
  split at he
  · rw [mem_errIf he]; rfl
  · simp at he

theorem noWS_httpRetries (r : HTTPRetry) :
    ∀ e ∈ ValidateHTTPRetries r, e.isWeightSum = false := by
  intro e he
  unfold ValidateHTTPRetries at he
  split at he
  · rw [mem_errIf he]; rfl
  · simp at he

theorem noWS_validateDelay (d : Delay) :
    ∀ e ∈ validateDelay d, e.isWeightSum = false := by
  intro e he
  simp only [validateDelay, List.mem_append] at he
  rcases he with (h | h) | h
  · exact noWS_validateFloatPercent _ _ e h
  · rw [mem_errIf h]; rfl
  · split at h
    · rcases List.mem_append.1 h with h1 | h1
      · rw [mem_errIf h1]; rfl
      · simp at h1; subst h1; rfl
    · simp at h

theorem noWS_validateAbort (a : Abort) :
    ∀ e ∈ validateAbort a, e.isWeightSum = false := by
  intro e he
  simp only [validateAbort, List.mem_append] at he
  rcases he with h | h
  · exact noWS_validateFloatPercent _ _ e h
  · split at h
    · simp at h; subst h; rfl
    · simp at h
    · rw [mem_errIf h]; rfl
    · simp at h

theorem noWS_httpFault (f : HTTPFaultInjection) :
    ∀ e ∈ ValidateHTTPFault f, e.isWeightSum = false := by
  intro e he
  simp only [ValidateHTTPFault, List.mem_append] at he
  rcases he with h | h
  · split at h
    · exact noWS_validateDelay _ e h
    · simp at h
  · split at h
    · exact noWS_validateAbort _ e h
    · simp at h

theorem noWS_validateThrottle (t : Throttle) :
    ∀ e ∈ validateThrottle t, e.isWeightSum = false := by
  intro e he
  simp only [validateThrottle, List.mem_append] at he
  rcases he with ((((h | h) | h) | h) | h) <;> first
    | exact noWS_validateFloatPercent _ _ e h
    | (rw [mem_errIf h]; rfl)

theorem noWS_l4Fault (f : L4FaultInjection) :
    ∀ e ∈ ValidateL4Fault f, e.isWeightSum = false := by
  intro e he
  simp only [ValidateL4Fault, List.mem_append] at he
  rcases he with h | h
  · split at h
    · rcases List.mem_append.1 h with h1 | h1
      · exact noWS_validateFloatPercent _ _ e h1
      · simp at h1; subst h1; rfl
    · simp at h
  · split at h
    · exact noWS_validateThrottle _ e h
    · simp at h

theorem noWS_validateWeights_single (dw : DestinationWeight) (dest : String)
    (hw : dw.Weight = 0) : validateWeights [dw] dest = [] := by
  simp [validateWeights, weightSum, hw]

theorem clear_evicts (c : discoveryCache) : ∀ kv ∈ c.clear.cache, kv.2.data = none := by
  intro kv hkv
  simp only [discoveryCache.clear, List.mem_map] at hkv
  obtain ⟨a, _, rfl⟩ := hkv
  rfl

theorem alookup_map_entry {k : String}
    (f : discoveryCacheEntry → discoveryCacheEntry)
    (l : List (String × discoveryCacheEntry)) :
    alookup k (l.map (fun kv => (kv.1, f kv.2))) = (alookup k l).map f := by
  induction l with
  | nil => rfl
  | cons hd tl ih =>
    obtain ⟨k1, v⟩ := hd
    simp only [List.map_cons, alookup]
    split <;> simp_all [alookup]

theorem alookup_map_ite {key : String}
    (g : discoveryCacheEntry → discoveryCacheEntry)
    (l : List (String × discoveryCacheEntry)) :
    alookup key (l.map (fun kv => if kv.1 = key then (kv.1, g kv.2) else kv)) =
      (alookup key l).map g := by
  induction l with
  | nil => rfl
  | cons hd tl ih =>
    obtain ⟨k1, v⟩ := hd
    simp only [List.map_cons]
    by_cases hk : k1 = key
    · subst hk
      rw [if_pos rfl]
      simp [alookup, ih]
    · rw [if_neg hk]
      simp [alookup, hk, ih]

theorem miss_no_change (c : discoveryCache) (k : String) :
    (c.cachedDiscoveryResponse k).1 = none → (c.cachedDiscoveryResponse k).2 = c := by
  unfold discoveryCache.cachedDiscoveryResponse
  split
  · intro _; rfl
  · split
    · intro _; rfl
    · split
      · intro _; rfl
      · intro h; simp at h

theorem applyOps_disabled_empty (ops : List CacheOp) :
    ∀ c : discoveryCache, c.disabled = true → c.cache = [] →
      (applyOps c ops).disabled = true ∧ (applyOps c ops).cache = [] := by
  induction ops with
  | nil => exact fun c h1 h2 => ⟨h1, h2⟩
  | cons op rest ih =>
    intro c h1 h2
    have hstep : (applyOp c op).disabled = true ∧ (applyOp c op).cache = [] := by
      cases op with
      | look k =>
        simp [applyOp, discoveryCache.cachedDiscoveryResponse, h1, h2]
      | upd k d =>
        simp [applyOp, discoveryCache.updateCachedDiscoveryResponse, h1, h2]
      | clr =>
        simp [applyOp, discoveryCache.clear, h1, h2]
      | rst =>
        simp [applyOp, discoveryCache.resetStats, h1, h2]
    exact ih (applyOp c op) hstep.1 hstep.2

/-! ### Claim theorems -/

/-- Claim C1: for every route rule whose `Route` list has more than one
destination and whose weights do not sum to 100, `ValidateRouteRule` returns
the weight-sum error; for a rule with exactly one destination of weight 0,
no weight-sum error is returned. -/
theorem ValidateRouteRule_weightSum (r : RouteRule) :
    (∀ routes, r.Route = some routes → 1 < routes.length → weightSum routes ≠ 100 →
       VErr.routeWeightsTotal (weightSum routes) ∈ ValidateRouteRule r) ∧
    (∀ dw, r.Route = some [dw] → dw.Weight = 0 →
       ∀ e ∈ ValidateRouteRule r, e.isWeightSum = false) := by
  constructor
  · intro routes hr hlen hsum
    have hlen1 : routes.length ≠ 1 := by omega
    simp only [ValidateRouteRule, hr]
    apply List.mem_append_left
    apply List.mem_append_left
    apply List.mem_append_left
    apply List.mem_append_left
    apply List.mem_append_right
    apply List.mem_append_right
    simp [validateWeights, errIf, hlen1, hsum]
  · intro dw hr hw e he
    simp only [ValidateRouteRule, hr, List.mem_append] at he
    rcases he with ((((((h | h) | h) | (h | h)) | h) | h) | h) | h
    · rw [mem_errIf h]; rfl
    · exact noWS_validateFQDN _ e h
    · split at h
      · exact noWS_matchCondition _ e h
      · simp at h
    · simp only [List.mem_flatMap] at h
      obtain ⟨x, hx, h⟩ := h
      exact noWS_destinationWeight _ e h
    · rw [noWS_validateWeights_single dw _ hw] at h
      simp at h
    · split at h
      · exact noWS_httpTimeout _ e h
      · simp at h
    · split at h
      · exact noWS_httpRetries _ e h
      · simp at h
    · split at h
      · exact noWS_httpFault _ e h
      · simp at h
    · split at h
      · rcases List.mem_append.1 h with h1 | h1
        · exact noWS_l4Fault _ e h1
        · simp at h1; subst h1; rfl
      · simp at h

/-- Witness for C1: a two-destination rule with weights 10 and 20 yields the
weight-sum error for 30; a single zero-weight destination yields none. -/
theorem ValidateRouteRule_weightSum_witness :
    VErr.routeWeightsTotal 30 ∈ ValidateRouteRule wRule ∧
    (ValidateRouteRule sRule).all (fun e => !e.isWeightSum) = true := by
  constructor
  · have h := (ValidateRouteRule_weightSum wRule).1
      [⟨"", [], 10⟩, ⟨"", [], 20⟩] rfl (by decide) (by decide)
    have h30 : weightSum [(⟨"", [], 10⟩ : DestinationWeight), ⟨"", [], 20⟩] = 30 := by decide
    rw [h30] at h
    exact h
  · refine List.all_eq_true.mpr (fun e he => ?_)
    have h := (ValidateRouteRule_weightSum sRule).2 ⟨"", [], 0⟩ rfl rfl e he
    simp [h]

/-- Counterexample for C2: `Service.Validate` performs no duplicate-name
check, so a service with two ports both named `http` validates cleanly; and
a service meeting the claim's invariant list but with an uppercase port name
is still rejected. -/
theorem Service_Validate_duplicate_counterexample :
    (dupPortSvc.Ports.map Port.Name = ["http", "http"] ∧
     Service.Validate dupPortSvc = []) ∧
    (ServiceClaimedInvariants upperPortSvc = true ∧
     Service.Validate upperPortSvc ≠ []) := by
  decide

/-- Claim C2 (amended): `Service.Validate` reports the empty-port-name issue
for every service with an empty port name among more than one port, and
returns no error for every service with DNS-1123 hostname labels, at least
one port, every port name either a DNS-1123 label or empty with exactly one
port, and non-negative port numbers; it does not check port-name
uniqueness. -/
theorem Service_Validate_amended (s : Service) :
    (∀ p, p ∈ s.Ports → p.Name = "" → 1 < s.Ports.length →
       VErr.emptyPortNamesNotAllowed ∈ Service.Validate s) ∧
    ((goSplit '.' s.Hostname).all IsDNS1123Label = true →
     s.Ports ≠ [] →
     (∀ p ∈ s.Ports, (p.Name = "" → s.Ports.length = 1) ∧
                     (p.Name ≠ "" → IsDNS1123Label p.Name = true) ∧
                     0 ≤ p.Port) →
     Service.Validate s = []) := by
  constructor
  · intro p hp hname hlen
    simp only [Service.Validate]
    apply List.mem_append_right
    simp only [List.mem_flatMap]
    refine ⟨p, hp, ?_⟩
    apply List.mem_append_left
    simp [hname, errIf, hlen]
  · intro hlabels hports hinv
    have hempty : ¬ (s.Hostname.length = 0) := by
      intro h0
      have hdata : s.Hostname.toList = [] := by
        have : s.Hostname.toList.length = 0 := h0
        exact List.length_eq_zero.mp this
      rw [goSplit, hdata] at hlabels
      simp [goSplitChar, IsDNS1123Label, matchesDNS1123Fmt] at hlabels
    have hlen0 : ¬ (s.Ports.length = 0) := by
      intro h0
      exact hports (List.length_eq_zero.mp h0)
    simp only [Service.Validate, List.append_eq_nil]
    refine ⟨⟨⟨?_, ?_⟩, ?_⟩, ?_⟩
    · simp [errIf, hempty]
    · rw [List.flatMap_eq_nil_iff]
      intro part hpart
      have := (List.all_eq_true.mp hlabels) part hpart
      simp [errIf, this]
    · simp [errIf, hlen0]
    · rw [List.flatMap_eq_nil_iff]
      intro p hp
      obtain ⟨hn1, hn2, hn3⟩ := hinv p hp
      rw [List.append_eq_nil]
      constructor
      · by_cases hname : p.Name = ""
        · simp only [hname, if_pos rfl]
          simp [errIf, hn1 hname]
        · rw [if_neg hname]
          simp [errIf, hn2 hname]
      · simp [errIf, Int.not_lt.mpr hn3]

/-- Witness for C2 (amended): the empty-name-among-two-ports service gets
the empty-port-name error, and a well-formed service validates cleanly. -/
theorem Service_Validate_amended_witness :
    VErr.emptyPortNamesNotAllowed ∈ Service.Validate svcEmptyName ∧
    Service.Validate svcValid = [] := by
  constructor
  · exact (Service_Validate_amended svcEmptyName).1 ⟨"", 80, ""⟩ (by decide) rfl (by decide)
  · exact (Service_Validate_amended svcValid).2 (by decide) (by decide) (by decide)

/-- Claim C3: an abort whose error type is a gRPC status always yields the
gRPC-unsupported error, whatever the other fields; an abort whose HTTP
status lies outside [0,600] yields the invalid-status error. -/
theorem validateAbort_unsupported (a : Abort) :
    (∀ g, a.ErrorType = some (.grpcStatus g) →
       VErr.grpcAbortUnsupported ∈ validateAbort a) ∧
    (∀ s, a.ErrorType = some (.httpStatus s) → (s < 0 ∨ 600 < s) →
       VErr.invalidAbortHttpStatus s ∈ validateAbort a) := by
  constructor
  · intro g hg
    simp [validateAbort, hg]
  · intro s hs hrange
    simp only [validateAbort, hs, List.mem_append]
    refine Or.inr ?_
    rcases hrange with h | h <;> simp [validateAbortHTTPStatus, errIf, h]

/-- Witness for C3: a gRPC abort with in-range percent errors, and HTTP
status 700 errors. -/
theorem validateAbort_unsupported_witness :
    VErr.grpcAbortUnsupported ∈ validateAbort ⟨50, some (.grpcStatus 7)⟩ ∧
    VErr.invalidAbortHttpStatus 700 ∈ validateAbort ⟨50, some (.httpStatus 700)⟩ := by
  constructor
  · exact (validateAbort_unsupported ⟨50, some (.grpcStatus 7)⟩).1 7 rfl
  · exact (validateAbort_unsupported ⟨50, some (.httpStatus 700)⟩).2 700 rfl
      (Or.inr (by decide))

/-- Claim C4: every handler registered by `NewDiscoveryService` (service,
instance, and the config handler used for both `RouteRule` and
`DestinationPolicy`) evicts the data of every entry of all three caches. -/
theorem handlers_clear_all_caches {α β M : Type} (ds : DiscoveryService α β)
    (s : Service) (e1 : Event) (i : ServiceInstance) (e2 : Event)
    (k : Key) (m : M) (e3 : Event) :
    (serviceHandler ds s e1).allEvicted ∧
    (instanceHandler ds i e2).allEvicted ∧
    (configHandler ds k m e3).allEvicted := by
  refine ⟨⟨?_, ?_, ?_⟩, ⟨?_, ?_, ?_⟩, ⟨?_, ?_, ?_⟩⟩ <;> exact clear_evicts _

/-- Claim C5: `clear` keeps the key set and every entry's hit/miss counters
while evicting its data; the next lookup of any key misses without touching
the state; and an enabled cache stores a recomputed value for an existing
key only through the subsequent update, bumping its miss counter. -/
theorem clear_keeps_keys_and_stats (c : discoveryCache) (k : String) :
    (c.clear.cache.map Prod.fst = c.cache.map Prod.fst) ∧
    (∀ e, alookup k c.cache = some e →
       alookup k c.clear.cache = some { data := none, hit := e.hit, miss := e.miss }) ∧
    (c.clear.cachedDiscoveryResponse k = (none, c.clear)) ∧
    (∀ d e, c.disabled = false → alookup k c.cache = some e →
       alookup k (c.clear.updateCachedDiscoveryResponse k d).cache =
         some { data := some d, hit := e.hit, miss := e.miss + 1 }) := by
  have hclear : ∀ k1, alookup k1 c.clear.cache =
      (alookup k1 c.cache).map (fun e => { e with data := none }) := by
    intro k1
    exact alookup_map_entry (fun e => { e with data := none }) c.cache
  refine ⟨?_, ?_, ?_, ?_⟩
  · simp [discoveryCache.clear]
  · intro e he
    rw [hclear k, he]
    rfl
  · unfold discoveryCache.cachedDiscoveryResponse
    split
    · rfl
    · rw [hclear k]
      cases halo : alookup k c.cache with
      | none => rfl
      | some e => rfl
  · intro d e hdis he
    unfold discoveryCache.updateCachedDiscoveryResponse
    have hdis2 : c.clear.disabled = false := hdis
    rw [if_neg (by rw [hdis2]; exact Bool.false_ne_true)]
    rw [hclear k, he]
    simp only [Option.map_some']
    have := @alookup_map_ite k
      (fun e2 => { data := some d, hit := e2.hit, miss := e2.miss + 1 }) c.clear.cache
    rw [this, hclear k, he]
    rfl

/-- Witness for C5: clearing a warm entry then updating it stores the new
data with the hit counter kept and the miss counter bumped. -/
theorem clear_keeps_keys_and_stats_witness :
    alookup "k" (cacheOne.clear.updateCachedDiscoveryResponse "k" "d").cache =
      some { data := some "d", hit := 2, miss := 3 + 1 } :=
  (clear_keeps_keys_and_stats cacheOne "k").2.2.2 "d"
    { data := some "v", hit := 2, miss := 3 } rfl rfl

/-- Claim C6: an uncached CDS or RDS request whose service-cluster differs
from the mesh's cluster name gets a 404 whose message is
`Unexpected service-cluster` followed by the quoted offending value. -/
theorem wrong_service_cluster_404 {α β : Type} (ds : DiscoveryService α β)
    (req : Request)
    (hsc : req.serviceCluster ≠ ds.mesh.IstioServiceCluster)
    (hcds : (ds.cdsCache.cachedDiscoveryResponse req.url).1 = none)
    (hrds : (ds.rdsCache.cachedDiscoveryResponse req.url).1 = none) :
    (ListClusters ds req).1 =
      .err 404 ("Unexpected service-cluster " ++ goQuote req.serviceCluster) ∧
    (ListRoutes ds req).1 =
      .err 404 ("Unexpected service-cluster " ++ goQuote req.serviceCluster) := by
  constructor
  · cases hc : ds.cdsCache.cachedDiscoveryResponse req.url with
    | mk out c2 =>
      rw [hc] at hcds
      cases out with
      | some o => simp at hcds
      | none => simp [ListClusters, hc, if_pos hsc]
  · cases hc : ds.rdsCache.cachedDiscoveryResponse req.url with
    | mk out c2 =>
      rw [hc] at hrds
      cases out with
      | some o => simp at hrds
      | none => simp [ListRoutes, hc, if_pos hsc]

/-- Witness for C6: against an empty-cache service, `other` is rejected by
both CDS and RDS with the diagnostic. -/
theorem wrong_service_cluster_404_witness :
    (ListClusters dsEmpty reqOther).1 =
      .err 404 ("Unexpected service-cluster " ++ goQuote "other") ∧
    (ListRoutes dsEmpty reqOther).1 =
      .err 404 ("Unexpected service-cluster " ++ goQuote "other") :=
  wrong_service_cluster_404 dsEmpty reqOther (by decide) rfl rfl

/-- Claim C7: a recomputed SDS response always renders the hosts field as a
JSON array — never null — and an empty instance set gives exactly
`{"hosts": []}` (two-space indented). -/
theorem sds_hosts_always_array {α β : Type} (ds : DiscoveryService α β)
    (req : Request)
    (hm : ds.marshalHosts = goMarshalHosts)
    (hmiss : (ds.sdsCache.cachedDiscoveryResponse req.url).1 = none) :
    ∃ inner,
      (ListEndpoints ds req).1 = .ok ("\x7b\n  \"hosts\": [" ++ inner ++ "]\n \x7d") ∧
      (ds.instances (ds.parseServiceKey req.serviceKey).1
         (ds.parseServiceKey req.serviceKey).2.1
         (ds.parseServiceKey req.serviceKey).2.2 = [] → inner = "") := by
  cases hc : ds.sdsCache.cachedDiscoveryResponse req.url with
  | mk out c2 =>
    rw [hc] at hmiss
    cases out with
    | some o => simp at hmiss
    | none =>
      cases hpk : ds.parseServiceKey req.serviceKey with
      | mk hostname pr =>
        cases pr with
        | mk pnames tags =>
          refine ⟨renderHostsInner ((ds.instances hostname pnames tags).map
            (fun ep => { Address := ep.Endpoint.Address, Port := ep.Endpoint.Port,
                         Weight := 0 })), ?_, ?_⟩
          · simp [ListEndpoints, hc, hpk, hm, goMarshalHosts]
          · intro hinst
            simp only at hinst
            rw [hinst]
            rfl

/-- Witness for C7: `GET /v1/registration/nonexistent` against an empty
registry returns the empty hosts array body. -/
theorem sds_hosts_always_array_witness :
    (ListEndpoints dsEmpty reqNonexistent).1 = .ok "\x7b\n  \"hosts\": []\n \x7d" := by
  obtain ⟨inner, h1, h2⟩ := sds_hosts_always_array dsEmpty reqNonexistent rfl rfl
  rw [h2 rfl] at h1
  rw [h1]
  decide

/-- Claim C8: the launch closure writes exactly
`{configDir}/envoy-rev{epoch}.json` (with the fixed config directory), and
spawns envoy with `-c`, `--restart-epoch`, `--drain-time-s`,
`--parent-shutdown-time-s`, `--service-cluster`, `--service-node`, plus an
optional log level; the cleanup hook removes the same file. -/
theorem agent_epoch_file_and_args {γ : Type} (mesh : ProxyMeshConfig)
    (ip : String) (config : γ) (epoch : Int) (v : Nat) (configDir : String) :
    configFile configDir epoch = configDir ++ "/envoy-rev" ++ toString epoch ++ ".json" ∧
    (runEnvoy mesh ip config epoch v).configFileWritten = configFile ConfigPath epoch ∧
    (runEnvoy mesh ip config epoch v).binary = BinaryPath ∧
    (runEnvoy mesh ip config epoch v).args =
      ["-c", configFile ConfigPath epoch,
       "--restart-epoch", toString epoch,
       "--drain-time-s", toString mesh.DrainSeconds,
       "--parent-shutdown-time-s", toString mesh.ParentShutdownSeconds,
       "--service-cluster", mesh.IstioServiceCluster,
       "--service-node", ip] ++
      (if 4 ≤ v then ["-l", "trace"] else if 3 ≤ v then ["-l", "debug"] else []) ∧
    cleanupEnvoy mesh epoch = (runEnvoy mesh ip config epoch v).configFileWritten := by
  refine ⟨rfl, rfl, ?_, ?_, rfl⟩
  · unfold runEnvoy
    split <;> rfl
  · unfold runEnvoy
    by_cases h4 : 4 ≤ v
    · simp [h4]
    · by_cases h3 : 3 ≤ v
      · simp [h4, h3]
      · simp [h4, h3]

/-- Claim C9: whenever an SDS, CDS, or RDS request produces an error
response, the discovery service state — in particular every cache entry and
counter — is left exactly as it was. -/
theorem error_responses_leave_state {α β : Type} (ds : DiscoveryService α β)
    (req : Request) :
    (∀ s m, (ListEndpoints ds req).1 = .err s m → (ListEndpoints ds req).2 = ds) ∧
    (∀ s m, (ListClusters ds req).1 = .err s m → (ListClusters ds req).2 = ds) ∧
    (∀ s m, (ListRoutes ds req).1 = .err s m → (ListRoutes ds req).2 = ds) := by
  refine ⟨?_, ?_, ?_⟩
  · intro s m
    cases hc : ds.sdsCache.cachedDiscoveryResponse req.url with
    | mk out c2 =>
      cases out with
      | some o => simp [ListEndpoints, hc]
      | none =>
        have hc2 : c2 = ds.sdsCache := by
          have h := miss_no_change ds.sdsCache req.url
          rw [hc] at h
          exact h rfl
        subst hc2
        cases hpk : ds.parseServiceKey req.serviceKey with
        | mk hostname pr =>
          cases pr with
          | mk pnames tags =>
            cases hm : ds.marshalHosts (.mk ((ds.instances hostname pnames tags).map
                (fun ep => { Address := ep.Endpoint.Address, Port := ep.Endpoint.Port,
                             Weight := 0 }))) with
            | error e =>
              simp only [ListEndpoints, hc, hpk, hm]
              exact fun _ => trivial
            | ok o => simp [ListEndpoints, hc, hpk, hm]
  · intro s m
    cases hc : ds.cdsCache.cachedDiscoveryResponse req.url with
    | mk out c2 =>
      cases out with
      | some o => simp [ListClusters, hc]
      | none =>
        have hc2 : c2 = ds.cdsCache := by
          have h := miss_no_change ds.cdsCache req.url
          rw [hc] at h
          exact h rfl
        subst hc2
        by_cases hsc : req.serviceCluster ≠ ds.mesh.IstioServiceCluster
        · simp only [ListClusters, hc, if_pos hsc]
          exact fun _ => trivial
        · cases hm : ds.marshalClusters (ds.buildClusters req.serviceNode) with
          | error e =>
            simp only [ListClusters, hc, if_neg hsc, hm]
            exact fun _ => trivial
          | ok o => simp [ListClusters, hc, if_neg hsc, hm]
  · intro s m
    cases hc : ds.rdsCache.cachedDiscoveryResponse req.url with
    | mk out c2 =>
      cases out with
      | some o => simp [ListRoutes, hc]
      | none =>
        have hc2 : c2 = ds.rdsCache := by
          have h := miss_no_change ds.rdsCache req.url
          rw [hc] at h
          exact h rfl
        subst hc2
        by_cases hsc : req.serviceCluster ≠ ds.mesh.IstioServiceCluster
        · simp only [ListRoutes, hc, if_pos hsc]
          exact fun _ => trivial
        · cases ha : goAtoi req.routeConfigName with
          | none =>
            simp only [ListRoutes, hc, if_neg hsc, ha]
            exact fun _ => trivial
          | some port =>
            cases hl : alookup port (ds.buildHTTPRouteConfigs req.serviceNode) with
            | none =>
              simp only [ListRoutes, hc, if_neg hsc, ha, hl]
              exact fun _ => trivial
            | some rc =>
              cases hm : ds.marshalRouteConfig rc with
              | error e =>
                simp only [ListRoutes, hc, if_neg hsc, ha, hl, hm]
                exact fun _ => trivial
              | ok o => simp [ListRoutes, hc, if_neg hsc, ha, hl, hm]

/-- Witness for C9: the CDS 404 for a wrong service-cluster leaves the
service state unchanged. -/
theorem error_responses_leave_state_witness :
    (ListClusters dsEmpty reqOther).2 = dsEmpty :=
  (error_responses_leave_state dsEmpty reqOther).2.1 404
    ("Unexpected service-cluster " ++ goQuote "other") rfl

/-- Claim C10: construction with `EnableCaching = false` gives three
disabled empty caches; under any sequence of cache operations the cache
stays empty, every lookup misses without changing state, every update is a
no-op, and the stats map is empty. -/
theorem disabled_cache_stays_empty {α β : Type} (o : DiscoveryServiceOptions α β)
    (h : o.EnableCaching = false) :
    ((NewDiscoveryService o).sdsCache = newDiscoveryCache false ∧
     (NewDiscoveryService o).cdsCache = newDiscoveryCache false ∧
     (NewDiscoveryService o).rdsCache = newDiscoveryCache false) ∧
    (∀ ops k d,
      (applyOps (newDiscoveryCache false) ops).cache = [] ∧
      (applyOps (newDiscoveryCache false) ops).cachedDiscoveryResponse k =
        (none, applyOps (newDiscoveryCache false) ops) ∧
      (applyOps (newDiscoveryCache false) ops).updateCachedDiscoveryResponse k d =
        applyOps (newDiscoveryCache false) ops ∧
      (applyOps (newDiscoveryCache false) ops).stats = []) := by
  constructor
  · rw [NewDiscoveryService, h]
    exact ⟨rfl, rfl, rfl⟩
  · intro ops k d
    have hinv := applyOps_disabled_empty ops (newDiscoveryCache false) rfl rfl
    refine ⟨hinv.2, ?_, ?_, ?_⟩
    · unfold discoveryCache.cachedDiscoveryResponse
      rw [if_pos hinv.1]
    · unfold discoveryCache.updateCachedDiscoveryResponse
      rw [if_pos hinv.1]
    · unfold discoveryCache.stats
      rw [hinv.2]
      rfl

/-- Witness for C10: a concrete update-lookup-clear run on the disabled
cache keeps it and its stats empty, and construction wires the disabled
cache in. -/
theorem disabled_cache_stays_empty_witness :
    (NewDiscoveryService optsNoCache).sdsCache = newDiscoveryCache false ∧
    (applyOps (newDiscoveryCache false)
        [CacheOp.upd "k" "d", CacheOp.look "k", CacheOp.clr]).cache = [] ∧
    (applyOps (newDiscoveryCache false)
        [CacheOp.upd "k" "d", CacheOp.look "k", CacheOp.clr]).stats = [] :=
  ⟨(disabled_cache_stays_empty optsNoCache rfl).1.1,
   ((disabled_cache_stays_empty optsNoCache rfl).2
      [CacheOp.upd "k" "d", CacheOp.look "k", CacheOp.clr] "k" "d").1,
   ((disabled_cache_stays_empty optsNoCache rfl).2
      [CacheOp.upd "k" "d", CacheOp.look "k", CacheOp.clr] "k" "d").2.2.2⟩

end Manager
